import Mathlib

/-!
Shallow embedding of the custom shader pipeline stage
(Source/Scene/ModelExperimental/CustomShaderStage.js).

JavaScript objects used as insertion-ordered string maps are modelled as
association lists (List (String × α)) with the JS insertion semantics:
assigning an existing key overwrites in place, a new key is appended.
The shader-assembly backend (shaderBuilder) is modelled as an append-only
log of calls; the one-time warning sink is modelled by returning the list
of (key, message) warning calls and by an explicit deduplication state.
-/

namespace CustomShaderStage

/-- Shader destination, mirroring ShaderDestination.VERTEX / FRAGMENT. -/
inductive ShaderStage where
  | vertex
  | fragment
  deriving DecidableEq, Repr

/-- One call performed on the shader-assembly backend (shaderBuilder). -/
inductive BuilderCall where
  | addStruct (structId : String) (typeName : String) (stage : ShaderStage)
  | addStructField (structId : String) (glslType : String) (fieldName : String)
  | addFunction (functionId : String) (signature : String) (stage : ShaderStage)
  | addFunctionLine (functionId : String) (line : String)
  | addVertexLines (lines : List String)
  | addFragmentLines (lines : List String)
  | addDefine (defineName : String) (value : Option String) (stage : ShaderStage)
  | addUniform (glslType : String) (uniformName : String)
  | addVarying (glslType : String) (varyingName : String)
  deriving DecidableEq, Repr

/-- A call to the one-time warning sink: (deduplication key, message). -/
abbrev Warning := String × String

/-- A vertex attribute of a primitive (ModelComponents.Attribute fields read
by this stage). The semantic and type enums are modelled as strings. -/
structure Attribute where
  name : String
  semantic : Option String
  setIndex : Option Nat
  type : String
  deriving DecidableEq, Repr

/-- A primitive, as read by this stage: its ordered attribute list. -/
structure Primitive where
  attributes : List Attribute
  deriving Repr

structure UsedVariablesVertex where
  attributeSet : List String
  deriving Repr

structure UsedVariablesFragment where
  attributeSet : List String
  positionSet : List String
  deriving Repr

/-- The custom shader configuration read from renderResources.model.customShader.
Uniforms are modelled as (name, glsl type) pairs, varyings as (name, type)
pairs, and uniformMap as (name, value) pairs with opaque values. -/
structure CustomShader where
  vertexShaderText : Option String
  fragmentShaderText : Option String
  usedVariablesVertex : UsedVariablesVertex
  usedVariablesFragment : UsedVariablesFragment
  uniforms : List (String × String)
  varyings : List (String × String)
  lightingModel : Option String
  mode : String
  isTranslucent : Bool
  uniformMap : List (String × String)
  deriving Repr

/-- External collaborators of this stage, per the interface boundary:
the attribute-semantic resolver, the GLSL type lookup, the define-name
lookup for the custom shader mode, and the two fixed stage epilogue
shader snippets. -/
structure Externals where
  getVariableName : String → Option Nat → String
  getGlslType : String → String
  getDefineName : String → String
  customShaderStageVS : String
  customShaderStageFS : String

/-- Transient per-stage generation result. In the source this starts as an
object with only enabled set to false; the list fields are only assigned on
success and only read when enabled is true, so the disabled value carries
empty lists. -/
structure StageLines where
  enabled : Bool
  attributeFields : List (String × String)
  fragmentInputFields : List (String × String)
  initializationLines : List String
  deriving DecidableEq, Repr

def StageLines.disabled : StageLines :=
  { enabled := false, attributeFields := [], fragmentInputFields := [],
    initializationLines := [] }

/-- The transient handoff artifact of generateShaderLines. -/
structure GeneratedCode where
  vertexLines : StageLines
  fragmentLines : StageLines
  vertexLinesEnabled : Bool
  fragmentLinesEnabled : Bool
  customShaderEnabled : Bool
  shouldComputePositionWC : Bool
  deriving DecidableEq, Repr

/-- The render-resources state mutated by process: the shader-builder call
log, the lighting model, the alpha options (pass and alphaMode, as strings,
with the pass also allowed to be undefined = none) and the uniform map. -/
structure RenderResources where
  calls : List BuilderCall
  lightingModel : String
  alphaPass : Option String
  alphaMode : String
  uniformMap : List (String × String)
  deriving Repr

/-- JS object property lookup on an association list. -/
def objLookup {α : Type} (m : List (String × α)) (k : String) : Option α :=
  (m.find? (fun p => p.1 = k)).map Prod.snd

/-- JS hasOwnProperty on an association list. -/
def objContains {α : Type} (m : List (String × α)) (k : String) : Bool :=
  m.any (fun p => p.1 = k)

/-- JS object property assignment: overwrite in place when the key exists,
append otherwise. -/
def objInsert {α : Type} (m : List (String × α)) (k : String) (v : α) :
    List (String × α) :=
  if objContains m k then
    m.map (fun p => if p.1 = k then (k, v) else p)
  else
    m ++ [(k, v)]

/-- The keys of an association list, in iteration order. -/
def objKeys {α : Type} (m : List (String × α)) : List String :=
  m.map Prod.fst

/-- getAttributeNames: builds the name → attribute catalog of a primitive.
A semantic attribute resolves through the semantic resolver; a user-defined
attribute drops its leading marker character and is lower-cased (substring
and toLowerCase are modelled directly on the character list). -/
def getAttributeNames (ext : Externals) (attributes : List Attribute) :
    List (String × Attribute) :=
  attributes.foldl
    (fun names attrib =>
      let variableName :=
        match attrib.semantic with
        | some semantic => ext.getVariableName semantic attrib.setIndex
        | none => String.mk ((attrib.name.data.drop 1).map Char.toLower)
      objInsert names variableName attrib)
    []

/-- generateAttributeField: a struct field (glsl type, variable name). -/
def generateAttributeField (ext : Externals) (fieldName : String)
    (attrib : Attribute) : String × String :=
  (ext.getGlslType attrib.type, fieldName)

/-- attributeTypeLUT: GLSL types of standard attributes when uniquely defined. -/
def attributeTypeLUT : List (String × String) :=
  [("positionMC", "vec3"), ("normal", "vec3"), ("tangent", "vec4"),
   ("texCoord", "vec2"), ("joints", "ivec4"), ("weights", "vec4")]

/-- attributeDefaultValueLUT: corresponding attribute default value literals. -/
def attributeDefaultValueLUT : List (String × String) :=
  [("positionMC", "vec3(0.0)"), ("normal", "vec3(0.0, 0.0, 1.0)"),
   ("tangent", "vec4(1.0, 0.0, 0.0, 1.0)"), ("texCoord", "vec2(0.0)"),
   ("joints", "ivec4(0)"), ("weights", "vec4(0.0)")]

/-- The regex replace of a trailing set index: removes one final underscore
followed by one or more digits at the end of the name, as in the source
regex replacing a trailing underscore-digits suffix with the empty string. -/
def stripTrailingSetIndex (s : String) : String :=
  let rev := s.data.reverse
  let digits := rev.takeWhile Char.isDigit
  let rest := rev.dropWhile Char.isDigit
  if digits.isEmpty then s
  else
    match rest with
    | List.cons c rest2 => if c = '_' then String.mk rest2.reverse else s
    | List.nil => s

structure AttributeDefaults where
  attributeField : String × String
  value : String
  deriving DecidableEq, Repr

/-- inferAttributeDefaults: look up a default (glsl type, value literal) for
a missing attribute after stripping a trailing set index; returns none when
the type cannot be inferred (for example for color attributes or unknown
user attributes). The value lookup always succeeds when the type lookup
does, since both tables share their keys. -/
def inferAttributeDefaults (attributeName : String) : Option AttributeDefaults :=
  let trimmed := stripTrailingSetIndex attributeName
  match objLookup attributeTypeLUT trimmed with
  | none => none
  | some glslType =>
      some { attributeField := (glslType, attributeName),
             value := (objLookup attributeDefaultValueLUT trimmed).getD "undefined" }

structure PartitionResult where
  addToShader : List (String × Attribute)
  missingAttributes : List String
  deriving Repr

/-- partitionAttributes: addToShader is the key-wise intersection of the
primitive attributes with the shader attribute set (in primitive catalog
iteration order); missingAttributes are the shader-set names absent from
the primitive, in shader-set iteration order. -/
def partitionAttributes (primitiveAttributes : List (String × Attribute))
    (shaderAttributeSet : List String) : PartitionResult :=
  let addToShader :=
    primitiveAttributes.filter (fun p => shaderAttributeSet.contains p.1)
  let missingAttributes :=
    shaderAttributeSet.filter (fun attributeName =>
      !(objContains primitiveAttributes attributeName))
  { addToShader := addToShader, missingAttributes := missingAttributes }

/-- The needsDefault loop shared by both stage generators: walks the missing
attributes, appending an inferred field and an assignment of the default
literal for each, and aborts with a single warning call at the first
attribute whose default cannot be inferred. -/
def defaultsLoop (inputName warningKey warningSuffix : String) :
    List String → List (String × String) → List String →
    Option (List (String × String) × List String) × List Warning
  | [], attributeFields, initLines => (some (attributeFields, initLines), [])
  | List.cons variableName rest, attributeFields, initLines =>
    match inferAttributeDefaults variableName with
    | none =>
        (none,
         [(warningKey,
           "Primitive is missing attribute " ++ variableName ++ warningSuffix)])
    | some defaults =>
        defaultsLoop inputName warningKey warningSuffix rest
          (attributeFields ++ [defaults.attributeField])
          (initLines ++
           [inputName ++ ".attributes." ++ variableName ++ " = " ++
            defaults.value ++ ";"])

/-- generateVertexShaderLines: mirrors the source, with the in-place
mutation of vertexLines modelled by the returned StageLines and the
one-time warning call returned as data. -/
def generateVertexShaderLines (ext : Externals) (customShader : CustomShader)
    (namedAttributes : List (String × Attribute)) : StageLines × List Warning :=
  let categories :=
    partitionAttributes namedAttributes customShader.usedVariablesVertex.attributeSet
  let addToShader := categories.addToShader
  let needsDefault := categories.missingAttributes
  let attributeFields :=
    addToShader.map (fun p => generateAttributeField ext p.1 p.2)
  let initLines :=
    addToShader.map (fun p =>
      "vsInput.attributes." ++ p.1 ++ " = attributes." ++ p.1 ++ ";")
  match defaultsLoop "vsInput" "CustomShaderStage.incompatiblePrimitiveVS"
      ", disabling custom vertex shader" needsDefault attributeFields initLines with
  | (none, warnings) => (StageLines.disabled, warnings)
  | (some (fields, lines), warnings) =>
      ({ enabled := true, attributeFields := fields, fragmentInputFields := [],
         initializationLines := lines }, warnings)

/-- generatePositionBuiltins: fields and assignment lines for the position
builtins present in the fragment position-usage set, in the fixed order
positionMC, positionWC, positionEC. -/
def generatePositionBuiltins (customShader : CustomShader) :
    List (String × String) × List String :=
  let usedVariables := customShader.usedVariablesFragment.positionSet
  let mcFields : List (String × String) :=
    if usedVariables.contains "positionMC" then [("vec3", "positionMC")] else []
  let mcLines : List String :=
    if usedVariables.contains "positionMC" then
      ["fsInput.positionMC = attributes.positionMC;"] else []
  let wcFields : List (String × String) :=
    if usedVariables.contains "positionWC" then [("vec3", "positionWC")] else []
  let wcLines : List String :=
    if usedVariables.contains "positionWC" then
      ["fsInput.positionWC = attributes.positionWC;"] else []
  let ecFields : List (String × String) :=
    if usedVariables.contains "positionEC" then [("vec3", "positionEC")] else []
  let ecLines : List String :=
    if usedVariables.contains "positionEC" then
      ["fsInput.positionEC = attributes.positionEC;"] else []
  (mcFields ++ wcFields ++ ecFields, mcLines ++ wcLines ++ ecLines)

/-- generateFragmentShaderLines: like the vertex pass, plus the position
builtins, whose assignment lines are prepended before the attribute lines. -/
def generateFragmentShaderLines (ext : Externals) (customShader : CustomShader)
    (namedAttributes : List (String × Attribute)) : StageLines × List Warning :=
  let categories :=
    partitionAttributes namedAttributes customShader.usedVariablesFragment.attributeSet
  let addToShader := categories.addToShader
  let needsDefault := categories.missingAttributes
  let attributeFields :=
    addToShader.map (fun p => generateAttributeField ext p.1 p.2)
  let initLines :=
    addToShader.map (fun p =>
      "fsInput.attributes." ++ p.1 ++ " = attributes." ++ p.1 ++ ";")
  match defaultsLoop "fsInput" "CustomShaderStage.incompatiblePrimitiveFS"
      ", disabling custom fragment shader." needsDefault attributeFields initLines with
  | (none, warnings) => (StageLines.disabled, warnings)
  | (some (fields, lines), warnings) =>
      let positionBuiltins := generatePositionBuiltins customShader
      ({ enabled := true, attributeFields := fields,
         fragmentInputFields := positionBuiltins.1,
         initializationLines := positionBuiltins.2 ++ lines }, warnings)

/-- generateShaderLines: attempts vertex and fragment generation (each only
when its user source text is defined) and computes the cross-stage flags. -/
def generateShaderLines (ext : Externals) (customShader : CustomShader)
    (primitive : Primitive) : GeneratedCode × List Warning :=
  let namedAttributes := getAttributeNames ext primitive.attributes
  let vertexResult :=
    if customShader.vertexShaderText.isSome then
      generateVertexShaderLines ext customShader namedAttributes
    else (StageLines.disabled, [])
  let fragmentResult :=
    if customShader.fragmentShaderText.isSome then
      generateFragmentShaderLines ext customShader namedAttributes
    else (StageLines.disabled, [])
  let vertexLines := vertexResult.1
  let fragmentLines := fragmentResult.1
  let shouldComputePositionWC :=
    customShader.usedVariablesFragment.positionSet.contains "positionWC" &&
      fragmentLines.enabled
  ({ vertexLines := vertexLines,
     fragmentLines := fragmentLines,
     vertexLinesEnabled := vertexLines.enabled,
     fragmentLinesEnabled := fragmentLines.enabled,
     customShaderEnabled := vertexLines.enabled || fragmentLines.enabled,
     shouldComputePositionWC := shouldComputePositionWC },
   vertexResult.2 ++ fragmentResult.2)

/-- addVertexLinesToShader: the backend calls emitted for an enabled vertex
stage, in source order. -/
def addVertexLinesToShader (vertexLines : StageLines) : List BuilderCall :=
  [BuilderCall.addStruct "AttributesVS" "Attributes" ShaderStage.vertex]
  ++ vertexLines.attributeFields.map
      (fun field => BuilderCall.addStructField "AttributesVS" field.1 field.2)
  ++ [BuilderCall.addStruct "VertexInput" "VertexInput" ShaderStage.vertex,
      BuilderCall.addStructField "VertexInput" "Attributes" "attributes",
      BuilderCall.addFunction "initializeInputStructVS"
        "void initializeInputStruct(out VertexInput vsInput, ProcessedAttributes attributes)"
        ShaderStage.vertex]
  ++ vertexLines.initializationLines.map
      (fun line => BuilderCall.addFunctionLine "initializeInputStructVS" line)

/-- addFragmentLinesToShader: the backend calls emitted for an enabled
fragment stage, in source order; the position builtin fields go on the
FragmentInput struct, after its attributes field. -/
def addFragmentLinesToShader (fragmentLines : StageLines) : List BuilderCall :=
  [BuilderCall.addStruct "AttributesFS" "Attributes" ShaderStage.fragment]
  ++ fragmentLines.attributeFields.map
      (fun field => BuilderCall.addStructField "AttributesFS" field.1 field.2)
  ++ [BuilderCall.addStruct "FragmentInput" "FragmentInput" ShaderStage.fragment,
      BuilderCall.addStructField "FragmentInput" "Attributes" "attributes"]
  ++ fragmentLines.fragmentInputFields.map
      (fun field => BuilderCall.addStructField "FragmentInput" field.1 field.2)
  ++ [BuilderCall.addFunction "initializeInputStructFS"
        "void initializeInputStruct(out FragmentInput fsInput, ProcessedAttributes attributes)"
        ShaderStage.fragment]
  ++ fragmentLines.initializationLines.map
      (fun line => BuilderCall.addFunctionLine "initializeInputStructFS" line)

/-- addLinesToShader: commits each enabled stage, appending the user source
text between a line-reset marker and the fixed stage epilogue snippet. The
user source text is always defined when its stage is enabled; getD supplies
a dummy for the impossible case. -/
def addLinesToShader (ext : Externals) (customShader : CustomShader)
    (generatedCode : GeneratedCode) : List BuilderCall :=
  (if generatedCode.vertexLines.enabled then
    addVertexLinesToShader generatedCode.vertexLines
    ++ [BuilderCall.addVertexLines
         ["#line 0", customShader.vertexShaderText.getD "",
          ext.customShaderStageVS]]
   else [])
  ++
  (if generatedCode.fragmentLines.enabled then
    addFragmentLinesToShader generatedCode.fragmentLines
    ++ [BuilderCall.addFragmentLines
         ["#line 0", customShader.fragmentShaderText.getD "",
          ext.customShaderStageFS]]
   else [])

/-- Modelled from the spec: the uniform-map merging helper (combine.js) is
an external collaborator whose code is not under src; section 4.7 of the
spec states that the user-supplied uniform value map is merged into the
uniform bindings of the draw call with user values taking precedence on
key collision. -/
def combineUniformMaps (uniformMap userUniformMap : List (String × String)) :
    List (String × String) :=
  uniformMap.filter (fun p => (objLookup userUniformMap p.1).isNone)
    ++ userUniformMap

/-- CustomShaderStage.process: generate, then commit only when the custom
shader is enabled; afterwards add defines, uniforms, varyings, the lighting
model override, the alpha settings and the merged uniform map. -/
def process (ext : Externals) (renderResources : RenderResources)
    (customShader : CustomShader) (primitive : Primitive) :
    RenderResources × List Warning :=
  let generated := generateShaderLines ext customShader primitive
  let generatedCode := generated.1
  if !generatedCode.customShaderEnabled then (renderResources, generated.2)
  else
    let calls :=
      addLinesToShader ext customShader generatedCode
      ++ (if generatedCode.shouldComputePositionWC then
            [BuilderCall.addDefine "COMPUTE_POSITION_WC" none ShaderStage.vertex]
          else [])
      ++ (if customShader.vertexShaderText.isSome then
            [BuilderCall.addDefine "HAS_CUSTOM_VERTEX_SHADER" none ShaderStage.vertex]
          else [])
      ++ (if customShader.fragmentShaderText.isSome then
            [BuilderCall.addDefine "HAS_CUSTOM_FRAGMENT_SHADER" none ShaderStage.fragment,
             BuilderCall.addDefine (ext.getDefineName customShader.mode) none
               ShaderStage.fragment]
          else [])
      ++ customShader.uniforms.map (fun u => BuilderCall.addUniform u.2 u.1)
      ++ customShader.varyings.map (fun v => BuilderCall.addVarying v.2 v.1)
    let lightingModel :=
      match customShader.lightingModel with
      | some lm => lm
      | none => renderResources.lightingModel
    let alpha : Option String × String :=
      if customShader.isTranslucent then (some "TRANSLUCENT", "BLEND")
      else (none, "OPAQUE")
    ({ calls := renderResources.calls ++ calls,
       lightingModel := lightingModel,
       alphaPass := alpha.1,
       alphaMode := alpha.2,
       uniformMap :=
         combineUniformMaps renderResources.uniformMap customShader.uniformMap },
     generated.2)

/-- One call to the one-time warning sink: emits the message and records the
key when the key is fresh, and is silent otherwise. -/
def oneTimeWarning (seen : List String) (w : Warning) :
    List String × List String :=
  if w.1 ∈ seen then (seen, []) else (List.cons w.1 seen, [w.2])

/-- Runs a list of warning calls through the one-time warning sink,
returning the new deduplication state and the emitted messages. -/
def runWarnings (seen : List String) (ws : List Warning) :
    List String × List String :=
  ws.foldl
    (fun acc w =>
      let r := oneTimeWarning acc.1 w
      (r.1, acc.2 ++ r.2))
    (seen, [])

/-- One full generation run with the process-wide warning-deduplication
state threaded through: the only state shared across invocations. Returns
the generated code, the emitted messages and the new state. -/
def runGenerateShaderLines (ext : Externals) (customShader : CustomShader)
    (primitive : Primitive) (seen : List String) :
    GeneratedCode × List String × List String :=
  let generated := generateShaderLines ext customShader primitive
  let warnResult := runWarnings seen generated.2
  (generated.1, warnResult.2, warnResult.1)


/-- Demonstration semantic resolver and type lookup used by witnesses. -/
def extDemo : Externals :=
  { getVariableName := fun semantic setIndex =>
      match setIndex with
      | some i => semantic ++ "_" ++ toString i
      | none => semantic,
    getGlslType := fun _ => "vec3",
    getDefineName := fun mode => "CUSTOM_SHADER_" ++ mode,
    customShaderStageVS := "vertex stage epilogue",
    customShaderStageFS := "fragment stage epilogue" }

/-- Demonstration primitive: one user attribute and one semantic attribute. -/
def primDemo : Primitive :=
  { attributes :=
      [{ name := "_TEMPERATURE", semantic := none, setIndex := none, type := "FLOAT" },
       { name := "POSITION", semantic := some "positionMC", setIndex := none,
         type := "VEC3" }] }

/-- Demonstration custom shader with no source text at all. -/
def csEmptyDemo : CustomShader :=
  { vertexShaderText := none, fragmentShaderText := none,
    usedVariablesVertex := { attributeSet := [] },
    usedVariablesFragment := { attributeSet := [], positionSet := [] },
    uniforms := [], varyings := [], lightingModel := none,
    mode := "MODIFY_MATERIAL", isTranslucent := false, uniformMap := [] }

/-- Demonstration render resources in their default state. -/
def rrDemo : RenderResources :=
  { calls := [], lightingModel := "PBR", alphaPass := none,
    alphaMode := "OPAQUE", uniformMap := [] }

theorem objContains_iff {α : Type} (m : List (String × α)) (k : String) :
    objContains m k = true ↔ k ∈ objKeys m := by
  simp [objContains, objKeys, List.any_eq_true, List.mem_map]

theorem objKeys_objInsert {α : Type} (m : List (String × α)) (k : String) (v : α) :
    objKeys (objInsert m k v) =
      if objContains m k then objKeys m else objKeys m ++ [k] := by
  unfold objInsert
  by_cases h : objContains m k = true
  · simp only [h, if_true, objKeys, List.map_map]
    apply List.map_congr_left
    intro p _
    by_cases hp : p.1 = k
    · simp [hp]
    · simp [hp]
  · simp only [Bool.not_eq_true] at h
    simp [h, objKeys]

theorem objKeys_nodup_objInsert {α : Type} (m : List (String × α)) (k : String)
    (v : α) (h : (objKeys m).Nodup) : (objKeys (objInsert m k v)).Nodup := by
  rw [objKeys_objInsert]
  by_cases hc : objContains m k = true
  · simpa [hc]
  · simp only [Bool.not_eq_true] at hc
    have hk : k ∉ objKeys m := by
      intro hmem
      rw [← objContains_iff] at hmem
      simp [hmem] at hc
    simp [hc, List.nodup_append, h, hk]

theorem getAttributeNames_keys_nodup (ext : Externals) (attrs : List Attribute) :
    (objKeys (getAttributeNames ext attrs)).Nodup := by
  have main : ∀ (l : List Attribute) (init : List (String × Attribute)),
      (objKeys init).Nodup →
      (objKeys (l.foldl
        (fun names attrib =>
          let variableName :=
            match attrib.semantic with
            | some semantic => ext.getVariableName semantic attrib.setIndex
            | none => String.mk ((attrib.name.data.drop 1).map Char.toLower)
          objInsert names variableName attrib) init)).Nodup := by
    intro l
    induction l with
    | nil => intro init h; exact h
    | cons a rest ih =>
        intro init h
        exact ih _ (objKeys_nodup_objInsert _ _ _ h)
  exact main attrs [] (by simp [objKeys])

/-- Every warning call produced by the defaults loop carries the key of the
loop. -/
theorem defaultsLoop_warning_keys (inputName warningKey warningSuffix : String)
    (l : List String) (af : List (String × String)) (il : List String) :
    ∀ w ∈ (defaultsLoop inputName warningKey warningSuffix l af il).2,
      w.1 = warningKey := by
  induction l generalizing af il with
  | nil => intro w hw; simp [defaultsLoop] at hw
  | cons x rest ih =>
      intro w hw
      rw [defaultsLoop] at hw
      cases hinf : inferAttributeDefaults x with
      | none =>
          rw [hinf] at hw
          simp at hw
          rw [hw]
      | some d =>
          rw [hinf] at hw
          exact ih _ _ w hw

/-- When every missing attribute is inferable, the defaults loop succeeds and
appends one inferred field and one default-assignment line per missing
attribute, in order, with no warning. -/
theorem defaultsLoop_success (inputName warningKey warningSuffix : String)
    (l : List String) (af : List (String × String)) (il : List String)
    (h : ∀ x ∈ l, (inferAttributeDefaults x).isSome = true) :
    defaultsLoop inputName warningKey warningSuffix l af il =
      (some
        (af ++ l.map (fun v =>
          ((inferAttributeDefaults v).getD ⟨("", ""), ""⟩).attributeField),
         il ++ l.map (fun v =>
          inputName ++ ".attributes." ++ v ++ " = " ++
            ((inferAttributeDefaults v).getD ⟨("", ""), ""⟩).value ++ ";")),
       []) := by
  induction l generalizing af il with
  | nil => simp [defaultsLoop]
  | cons x rest ih =>
      have hx := h x (by simp)
      cases hinf : inferAttributeDefaults x with
      | none => rw [hinf] at hx; simp at hx
      | some d =>
          simp only [defaultsLoop, hinf]
          rw [ih _ _ (fun y hy => h y (by simp [hy]))]
          simp [hinf]

/-- When some missing attribute is not inferable, the defaults loop aborts at
the first such attribute, producing exactly one warning call that names it. -/
theorem defaultsLoop_abort (inputName warningKey warningSuffix : String)
    (l : List String) (af : List (String × String)) (il : List String)
    (h : ∃ x ∈ l, inferAttributeDefaults x = none) :
    ∃ m, m ∈ l ∧ inferAttributeDefaults m = none ∧
      defaultsLoop inputName warningKey warningSuffix l af il =
        (none,
         [(warningKey,
           "Primitive is missing attribute " ++ m ++ warningSuffix)]) := by
  induction l generalizing af il with
  | nil => simp at h
  | cons x rest ih =>
      cases hinf : inferAttributeDefaults x with
      | none =>
          refine ⟨x, by simp, hinf, ?_⟩
          rw [defaultsLoop, hinf]
      | some d =>
          obtain ⟨y, hy, hynone⟩ := h
          have hyrest : y ∈ rest := by
            rcases List.mem_cons.mp hy with rfl | hmem
            · rw [hinf] at hynone; cases hynone
            · exact hmem
          obtain ⟨m, hm, hmnone, heq⟩ := ih _ _ ⟨y, hyrest, hynone⟩
          exact ⟨m, by simp [hm], hmnone, by rw [defaultsLoop, hinf]; exact heq⟩

/-- Demonstration custom shader: fragment stage only, which uses no
attributes and reads positionWC. -/
def csPosDemo : CustomShader :=
  { csEmptyDemo with
      fragmentShaderText := some "fragment body",
      usedVariablesFragment := { attributeSet := [], positionSet := ["positionWC"] } }

/-- C2: customShaderEnabled is exactly the disjunction of vertex and
fragment generation success; with both user source texts absent it is false,
and process leaves the render resources, including the backend call log,
completely unchanged. -/
theorem claim_C2 (ext : Externals) (rr : RenderResources) (cs : CustomShader)
    (p : Primitive) :
    ((generateShaderLines ext cs p).1.customShaderEnabled =
       ((generateShaderLines ext cs p).1.vertexLines.enabled ||
        (generateShaderLines ext cs p).1.fragmentLines.enabled)) ∧
    (cs.vertexShaderText = none → cs.fragmentShaderText = none →
      ((generateShaderLines ext cs p).1.customShaderEnabled = false ∧
       (process ext rr cs p).1 = rr)) := by
  constructor
  · rfl
  · intro hv hf
    have hgen : (generateShaderLines ext cs p).1.customShaderEnabled = false := by
      simp [generateShaderLines, hv, hf, StageLines.disabled]
    exact ⟨hgen, by simp [process, hgen]⟩

theorem claim_C2_witness :
    (generateShaderLines extDemo csEmptyDemo primDemo).1.customShaderEnabled = false ∧
    (process extDemo rrDemo csEmptyDemo primDemo).1 = rrDemo :=
  (claim_C2 extDemo rrDemo csEmptyDemo primDemo).2 rfl rfl

/-- C8: generation is deterministic: a second run on identical inputs,
starting from the warning-deduplication state left behind by the first run
(the only state shared across invocations), produces a byte-identical
GeneratedCode value, line sets and flags included. -/
theorem claim_C8 (ext : Externals) (cs : CustomShader) (p : Primitive)
    (seen : List String) :
    (runGenerateShaderLines ext cs p
        (runGenerateShaderLines ext cs p seen).2.2).1 =
      (runGenerateShaderLines ext cs p seen).1 := rfl

/-- C9: partitionAttributes is a pure function: addToShader is the key-wise
intersection of the primitive attribute map with the shader attribute set,
mapping each common name to the attribute of the primitive; missingAttributes
is the subsequence of the shader attribute set, in its declared iteration
order, consisting of the names absent from the primitive map; an unused
primitive attribute appears in neither output. -/
theorem claim_C9 (primitiveAttributes : List (String × Attribute))
    (shaderAttributeSet : List String) :
    (∀ n a, ((n, a) ∈
        (partitionAttributes primitiveAttributes shaderAttributeSet).addToShader ↔
       ((n, a) ∈ primitiveAttributes ∧ n ∈ shaderAttributeSet))) ∧
    List.Sublist
      (partitionAttributes primitiveAttributes shaderAttributeSet).missingAttributes
      shaderAttributeSet ∧
    (∀ n, (n ∈
        (partitionAttributes primitiveAttributes shaderAttributeSet).missingAttributes ↔
       (n ∈ shaderAttributeSet ∧ n ∉ objKeys primitiveAttributes))) ∧
    (∀ n, n ∈ objKeys primitiveAttributes → n ∉ shaderAttributeSet →
       (n ∉ objKeys
          (partitionAttributes primitiveAttributes shaderAttributeSet).addToShader ∧
        n ∉ (partitionAttributes primitiveAttributes shaderAttributeSet).missingAttributes)) := by
  refine ⟨?_, ?_, ?_, ?_⟩
  · intro n a
    simp [partitionAttributes, List.mem_filter]
  · exact List.filter_sublist shaderAttributeSet
  · intro n
    simp [partitionAttributes, List.mem_filter, ← objContains_iff]
  · intro n hmem hnotin
    constructor
    · intro hkey
      simp only [partitionAttributes, objKeys, List.mem_map] at hkey
      obtain ⟨q, hq, rfl⟩ := hkey
      have := (List.mem_filter.mp hq).2
      simp at this
      exact hnotin this
    · intro hmiss
      simp [partitionAttributes, List.mem_filter] at hmiss
      exact hnotin hmiss.1

theorem claim_C9_witness :
    "temperature" ∉ objKeys
      (partitionAttributes [("temperature",
        { name := "_TEMPERATURE", semantic := none, setIndex := none,
          type := "FLOAT" })] ["normal"]).addToShader ∧
    "temperature" ∉ (partitionAttributes [("temperature",
        { name := "_TEMPERATURE", semantic := none, setIndex := none,
          type := "FLOAT" })] ["normal"]).missingAttributes :=
  (claim_C9 _ _).2.2.2 "temperature" (by decide) (by decide)

/-- C3: shouldComputePositionWC holds exactly when positionWC is in the
fragment position-usage set and the fragment stage ends enabled; when it
holds, process adds the COMPUTE_POSITION_WC define to the vertex stage. -/
theorem claim_C3 (ext : Externals) (rr : RenderResources) (cs : CustomShader)
    (p : Primitive) :
    ((generateShaderLines ext cs p).1.shouldComputePositionWC = true ↔
       ("positionWC" ∈ cs.usedVariablesFragment.positionSet ∧
        (generateShaderLines ext cs p).1.fragmentLines.enabled = true)) ∧
    ((generateShaderLines ext cs p).1.shouldComputePositionWC = true →
       BuilderCall.addDefine "COMPUTE_POSITION_WC" none ShaderStage.vertex ∈
         (process ext rr cs p).1.calls) := by
  have h1 : (generateShaderLines ext cs p).1.shouldComputePositionWC =
      (cs.usedVariablesFragment.positionSet.contains "positionWC" &&
       (generateShaderLines ext cs p).1.fragmentLines.enabled) := rfl
  constructor
  · rw [h1]
    simp [Bool.and_eq_true]
  · intro h
    have hfrag : (generateShaderLines ext cs p).1.fragmentLines.enabled = true := by
      rw [h1] at h
      exact (Bool.and_eq_true _ _).mp h |>.2
    have hcse : (generateShaderLines ext cs p).1.customShaderEnabled = true := by
      have hd : (generateShaderLines ext cs p).1.customShaderEnabled =
          ((generateShaderLines ext cs p).1.vertexLines.enabled ||
           (generateShaderLines ext cs p).1.fragmentLines.enabled) := rfl
      rw [hd, hfrag]
      simp
    simp [process, hcse, h, List.mem_append]

theorem claim_C3_witness :
    BuilderCall.addDefine "COMPUTE_POSITION_WC" none ShaderStage.vertex ∈
      (process extDemo rrDemo csPosDemo primDemo).1.calls :=
  (claim_C3 extDemo rrDemo csPosDemo primDemo).2 (by decide)

/-- Demonstration custom shader: fragment stage only, not translucent. -/
def csOpaqueDemo : CustomShader :=
  { csEmptyDemo with fragmentShaderText := some "fragment body" }

/-- Demonstration render resources left by a material stage that chose
translucent blending. -/
def rrBlendDemo : RenderResources :=
  { rrDemo with alphaMode := "BLEND", alphaPass := some "TRANSLUCENT" }

/-- C4 counterexample: with custom shading enabled and isTranslucent false,
the alpha settings are not left at their prior pipeline value: process
force-sets the alpha mode to OPAQUE, here overwriting a prior BLEND. -/
theorem claim_C4_counterexample :
    csOpaqueDemo.isTranslucent = false ∧
    (generateShaderLines extDemo csOpaqueDemo primDemo).1.customShaderEnabled = true ∧
    rrBlendDemo.alphaMode = "BLEND" ∧
    (process extDemo rrBlendDemo csOpaqueDemo primDemo).1.alphaMode = "OPAQUE" ∧
    (process extDemo rrBlendDemo csOpaqueDemo primDemo).1.alphaMode ≠
      rrBlendDemo.alphaMode := by
  refine ⟨rfl, by decide, rfl, by decide, by decide⟩

/-- C4 amended: for every shader spec with custom shading enabled, if
isTranslucent is true process sets the render pass to translucent and the
alpha mode to blend; if isTranslucent is false, process resets the render
pass to the pipeline default (undefined) but force-sets the alpha mode to
opaque, overwriting any prior alpha mode. -/
theorem claim_C4_amended (ext : Externals) (rr : RenderResources)
    (cs : CustomShader) (p : Primitive)
    (h : (generateShaderLines ext cs p).1.customShaderEnabled = true) :
    (cs.isTranslucent = true →
      ((process ext rr cs p).1.alphaPass = some "TRANSLUCENT" ∧
       (process ext rr cs p).1.alphaMode = "BLEND")) ∧
    (cs.isTranslucent = false →
      ((process ext rr cs p).1.alphaPass = none ∧
       (process ext rr cs p).1.alphaMode = "OPAQUE")) := by
  constructor
  · intro ht
    constructor <;> simp [process, h, ht]
  · intro ht
    constructor <;> simp [process, h, ht]

theorem claim_C4_witness :
    (process extDemo rrBlendDemo csOpaqueDemo primDemo).1.alphaPass = none ∧
    (process extDemo rrBlendDemo csOpaqueDemo primDemo).1.alphaMode = "OPAQUE" :=
  (claim_C4_amended extDemo rrBlendDemo csOpaqueDemo primDemo (by decide)).2 rfl

/-- In the merged uniform map a key defined in the user-supplied map resolves
to the user-supplied value. -/
theorem objLookup_combineUniformMaps (base user : List (String × String))
    (k v : String) (h : objLookup user k = some v) :
    objLookup (combineUniformMaps base user) k = some v := by
  have hnone : (base.filter fun q => (objLookup user q.1).isNone).find?
      (fun q => decide (q.1 = k)) = none := by
    rw [List.find?_eq_none]
    intro x hx hxk
    have hfil := (List.mem_filter.mp hx).2
    have hx1 : x.1 = k := by simpa using hxk
    rw [hx1, h] at hfil
    simp at hfil
  show (((base.filter fun q => (objLookup user q.1).isNone) ++ user).find?
      (fun q => decide (q.1 = k))).map Prod.snd = some v
  rw [List.find?_append, hnone]
  simpa [objLookup] using h

/-- C5: with custom shading enabled, process merges the user-supplied
uniform value map into the uniform bindings of the draw call, and for a key
present in both maps the user-supplied value takes precedence. -/
theorem claim_C5 (ext : Externals) (rr : RenderResources) (cs : CustomShader)
    (p : Primitive) (k v : String)
    (henabled : (generateShaderLines ext cs p).1.customShaderEnabled = true)
    (_hbase : (objLookup rr.uniformMap k).isSome = true)
    (huser : objLookup cs.uniformMap k = some v) :
    objLookup (process ext rr cs p).1.uniformMap k = some v := by
  have hproc : (process ext rr cs p).1.uniformMap =
      combineUniformMaps rr.uniformMap cs.uniformMap := by
    simp [process, henabled]
  rw [hproc]
  exact objLookup_combineUniformMaps _ _ _ _ huser

/-- Demonstration custom shader carrying a user uniform value colliding with
a pipeline uniform binding. -/
def csUniformDemo : CustomShader :=
  { csEmptyDemo with
      fragmentShaderText := some "fragment body",
      uniformMap := [("u_time", "user value")] }

/-- Demonstration render resources with a prior binding for the same key. -/
def rrUniformDemo : RenderResources :=
  { rrDemo with uniformMap := [("u_time", "pipeline value")] }

theorem claim_C5_witness :
    objLookup (process extDemo rrUniformDemo csUniformDemo primDemo).1.uniformMap
      "u_time" = some "user value" :=
  claim_C5 extDemo rrUniformDemo csUniformDemo primDemo "u_time" "user value"
    (by decide) (by decide) (by decide)

/-- Recognizes the backend call that appends raw vertex-stage shader text. -/
def isAddVertexLinesCall : BuilderCall → Bool
  | BuilderCall.addVertexLines _ => true
  | _ => false

/-- Recognizes the backend call that appends raw fragment-stage shader text. -/
def isAddFragmentLinesCall : BuilderCall → Bool
  | BuilderCall.addFragmentLines _ => true
  | _ => false

/-- The emission of an enabled fragment stage never appends vertex-stage
shader text. -/
theorem addFragmentLinesToShader_no_vertex_text (fl : StageLines) :
    ∀ c ∈ addFragmentLinesToShader fl, isAddVertexLinesCall c = false := by
  intro c hc
  simp [addFragmentLinesToShader, List.mem_append, List.mem_map] at hc
  rcases hc with h | h | h | h | h | h | h
  all_goals first
    | (rw [h]; rfl)
    | (obtain ⟨x, y, hm, rfl⟩ := h; rfl)

/-- The emission of an enabled vertex stage never appends fragment-stage
shader text. -/
theorem addVertexLinesToShader_no_fragment_text (vl : StageLines) :
    ∀ c ∈ addVertexLinesToShader vl, isAddFragmentLinesCall c = false := by
  intro c hc
  simp [addVertexLinesToShader, List.mem_append, List.mem_map] at hc
  rcases hc with h | h | h | h | h | h
  all_goals first
    | (rw [h]; rfl)
    | (obtain ⟨x, y, hm, rfl⟩ := h; rfl)

/-- C10: whenever custom shading is enabled, the stage-presence defines are
keyed to source-text presence rather than per-stage generation success: a
defined vertex source text yields HAS_CUSTOM_VERTEX_SHADER even when the
vertex stage is disabled and its user text is not appended; a defined
fragment source text symmetrically yields HAS_CUSTOM_FRAGMENT_SHADER and the
lighting-mode define. -/
theorem claim_C10 (ext : Externals) (rr : RenderResources) (cs : CustomShader)
    (p : Primitive) :
    ((generateShaderLines ext cs p).1.customShaderEnabled = true →
     cs.vertexShaderText.isSome = true →
     BuilderCall.addDefine "HAS_CUSTOM_VERTEX_SHADER" none ShaderStage.vertex ∈
       (process ext rr cs p).1.calls) ∧
    ((generateShaderLines ext cs p).1.customShaderEnabled = true →
     cs.fragmentShaderText.isSome = true →
     (BuilderCall.addDefine "HAS_CUSTOM_FRAGMENT_SHADER" none ShaderStage.fragment ∈
        (process ext rr cs p).1.calls ∧
      BuilderCall.addDefine (ext.getDefineName cs.mode) none ShaderStage.fragment ∈
        (process ext rr cs p).1.calls)) ∧
    ((generateShaderLines ext cs p).1.vertexLines.enabled = false →
     (process ext rr cs p).1.calls.filter isAddVertexLinesCall =
       rr.calls.filter isAddVertexLinesCall) ∧
    ((generateShaderLines ext cs p).1.fragmentLines.enabled = false →
     (process ext rr cs p).1.calls.filter isAddFragmentLinesCall =
       rr.calls.filter isAddFragmentLinesCall) := by
  refine ⟨?_, ?_, ?_, ?_⟩
  · intro hcse hv
    simp [process, hcse, hv, List.mem_append]
  · intro hcse hf
    constructor <;> simp [process, hcse, hf, List.mem_append]
  · intro hvdis
    by_cases hcse : (generateShaderLines ext cs p).1.customShaderEnabled = true
    · have hfrag :=
        addFragmentLinesToShader_no_vertex_text
          (generateShaderLines ext cs p).1.fragmentLines
      simp [process, hcse, addLinesToShader, hvdis, List.filter_append,
        List.filter_eq_nil_iff, isAddVertexLinesCall]
      refine ⟨?_, ?_, ?_, ?_⟩
      · intro a _ ha
        rcases ha with h | h
        · exact hfrag a h
        · rw [h]
      · intro a _ ha
        rcases ha with h | h <;> rw [h]
      · intro a x y _ h
        rw [← h]
      · intro a x y _ h
        rw [← h]
    · simp [Bool.not_eq_true] at hcse
      simp [process, hcse]
  · intro hfdis
    by_cases hcse : (generateShaderLines ext cs p).1.customShaderEnabled = true
    · have hvert :=
        addVertexLinesToShader_no_fragment_text
          (generateShaderLines ext cs p).1.vertexLines
      simp [process, hcse, addLinesToShader, hfdis, List.filter_append,
        List.filter_eq_nil_iff, isAddFragmentLinesCall]
      refine ⟨?_, ?_, ?_, ?_⟩
      · intro a _ ha
        rcases ha with h | h
        · exact hvert a h
        · rw [h]
      · intro a _ ha
        rcases ha with h | h <;> rw [h]
      · intro a x y _ h
        rw [← h]
      · intro a x y _ h
        rw [← h]
    · simp [Bool.not_eq_true] at hcse
      simp [process, hcse]

/-- Demonstration custom shader whose vertex stage fails (it uses a missing,
non-inferable color attribute) while its fragment stage succeeds. -/
def csC10Demo : CustomShader :=
  { csEmptyDemo with
      vertexShaderText := some "vertex body",
      usedVariablesVertex := { attributeSet := ["color_0"] },
      fragmentShaderText := some "fragment body" }

theorem claim_C10_witness :
    (BuilderCall.addDefine "HAS_CUSTOM_VERTEX_SHADER" none ShaderStage.vertex ∈
      (process extDemo rrDemo csC10Demo primDemo).1.calls) ∧
    ((process extDemo rrDemo csC10Demo primDemo).1.calls.filter
        isAddVertexLinesCall =
      rrDemo.calls.filter isAddVertexLinesCall) :=
  ⟨(claim_C10 extDemo rrDemo csC10Demo primDemo).1 (by decide) (by decide),
   (claim_C10 extDemo rrDemo csC10Demo primDemo).2.2.1 (by decide)⟩

/-- Recognizes the vertex-stage struct, struct-field, function and raw-line
backend calls. -/
def isVertexStageStructCall : BuilderCall → Bool
  | BuilderCall.addStruct _ _ ShaderStage.vertex => true
  | BuilderCall.addStructField sid _ _ =>
      sid = "AttributesVS" || sid = "VertexInput"
  | BuilderCall.addFunction _ _ ShaderStage.vertex => true
  | BuilderCall.addFunctionLine fid _ => fid = "initializeInputStructVS"
  | BuilderCall.addVertexLines _ => true
  | _ => false

/-- Recognizes the fragment-stage struct, struct-field, function and
raw-line backend calls. -/
def isFragmentStageStructCall : BuilderCall → Bool
  | BuilderCall.addStruct _ _ ShaderStage.fragment => true
  | BuilderCall.addStructField sid _ _ =>
      sid = "AttributesFS" || sid = "FragmentInput"
  | BuilderCall.addFunction _ _ ShaderStage.fragment => true
  | BuilderCall.addFunctionLine fid _ => fid = "initializeInputStructFS"
  | BuilderCall.addFragmentLines _ => true
  | _ => false

/-- The emission of an enabled fragment stage makes no vertex-stage struct,
field, function or raw-line call. -/
theorem addFragmentLinesToShader_no_vertex_struct (fl : StageLines) :
    ∀ c ∈ addFragmentLinesToShader fl, isVertexStageStructCall c = false := by
  intro c hc
  simp [addFragmentLinesToShader, List.mem_append, List.mem_map] at hc
  rcases hc with h | h | h | h | h | h | h
  all_goals first
    | (rw [h]; rfl)
    | (obtain ⟨x, y, hm, rfl⟩ := h; rfl)

/-- The emission of an enabled vertex stage makes no fragment-stage struct,
field, function or raw-line call. -/
theorem addVertexLinesToShader_no_fragment_struct (vl : StageLines) :
    ∀ c ∈ addVertexLinesToShader vl, isFragmentStageStructCall c = false := by
  intro c hc
  simp [addVertexLinesToShader, List.mem_append, List.mem_map] at hc
  rcases hc with h | h | h | h | h | h
  all_goals first
    | (rw [h]; rfl)
    | (obtain ⟨x, y, hm, rfl⟩ := h; rfl)

/-- Abort characterization of the vertex generator: when some missing
attribute is not inferable, the result is the disabled StageLines value and
exactly one warning call naming a missing, non-inferable attribute. -/
theorem generateVertexShaderLines_abort (ext : Externals) (cs : CustomShader)
    (na : List (String × Attribute))
    (h : ∃ x ∈ (partitionAttributes na
          cs.usedVariablesVertex.attributeSet).missingAttributes,
        inferAttributeDefaults x = none) :
    ∃ m ∈ (partitionAttributes na
        cs.usedVariablesVertex.attributeSet).missingAttributes,
      inferAttributeDefaults m = none ∧
      generateVertexShaderLines ext cs na =
        (StageLines.disabled,
         [("CustomShaderStage.incompatiblePrimitiveVS",
           "Primitive is missing attribute " ++ m ++
             ", disabling custom vertex shader")]) := by
  obtain ⟨m, hm, hmn, heq⟩ :=
    defaultsLoop_abort "vsInput" "CustomShaderStage.incompatiblePrimitiveVS"
      ", disabling custom vertex shader"
      (partitionAttributes na cs.usedVariablesVertex.attributeSet).missingAttributes
      ((partitionAttributes na cs.usedVariablesVertex.attributeSet).addToShader.map
        (fun p => generateAttributeField ext p.1 p.2))
      ((partitionAttributes na cs.usedVariablesVertex.attributeSet).addToShader.map
        (fun p => "vsInput.attributes." ++ p.1 ++ " = attributes." ++ p.1 ++ ";"))
      h
  refine ⟨m, hm, hmn, ?_⟩
  simp only [generateVertexShaderLines]
  rw [heq]

/-- Abort characterization of the fragment generator. -/
theorem generateFragmentShaderLines_abort (ext : Externals) (cs : CustomShader)
    (na : List (String × Attribute))
    (h : ∃ x ∈ (partitionAttributes na
          cs.usedVariablesFragment.attributeSet).missingAttributes,
        inferAttributeDefaults x = none) :
    ∃ m ∈ (partitionAttributes na
        cs.usedVariablesFragment.attributeSet).missingAttributes,
      inferAttributeDefaults m = none ∧
      generateFragmentShaderLines ext cs na =
        (StageLines.disabled,
         [("CustomShaderStage.incompatiblePrimitiveFS",
           "Primitive is missing attribute " ++ m ++
             ", disabling custom fragment shader.")]) := by
  obtain ⟨m, hm, hmn, heq⟩ :=
    defaultsLoop_abort "fsInput" "CustomShaderStage.incompatiblePrimitiveFS"
      ", disabling custom fragment shader."
      (partitionAttributes na cs.usedVariablesFragment.attributeSet).missingAttributes
      ((partitionAttributes na cs.usedVariablesFragment.attributeSet).addToShader.map
        (fun p => generateAttributeField ext p.1 p.2))
      ((partitionAttributes na cs.usedVariablesFragment.attributeSet).addToShader.map
        (fun p => "fsInput.attributes." ++ p.1 ++ " = attributes." ++ p.1 ++ ";"))
      h
  refine ⟨m, hm, hmn, ?_⟩
  simp only [generateFragmentShaderLines]
  rw [heq]

/-- Success characterization of the vertex generator: when every missing
attribute is inferable, the stage is enabled with the intersection fields
followed by the inferred fields, the matching assignment lines, and no
warning. -/
theorem generateVertexShaderLines_success (ext : Externals) (cs : CustomShader)
    (na : List (String × Attribute))
    (h : ∀ x ∈ (partitionAttributes na
          cs.usedVariablesVertex.attributeSet).missingAttributes,
        (inferAttributeDefaults x).isSome = true) :
    generateVertexShaderLines ext cs na =
      ({ enabled := true,
         attributeFields :=
           (partitionAttributes na
             cs.usedVariablesVertex.attributeSet).addToShader.map
               (fun p => generateAttributeField ext p.1 p.2) ++
           (partitionAttributes na
             cs.usedVariablesVertex.attributeSet).missingAttributes.map
               (fun v =>
                 ((inferAttributeDefaults v).getD ⟨("", ""), ""⟩).attributeField),
         fragmentInputFields := [],
         initializationLines :=
           (partitionAttributes na
             cs.usedVariablesVertex.attributeSet).addToShader.map
               (fun p =>
                 "vsInput.attributes." ++ p.1 ++ " = attributes." ++ p.1 ++ ";") ++
           (partitionAttributes na
             cs.usedVariablesVertex.attributeSet).missingAttributes.map
               (fun v =>
                 "vsInput" ++ ".attributes." ++ v ++ " = " ++
                   ((inferAttributeDefaults v).getD ⟨("", ""), ""⟩).value ++ ";") },
       []) := by
  simp only [generateVertexShaderLines]
  rw [defaultsLoop_success _ _ _ _ _ _ h]

/-- Every warning call of the fragment generator carries the fragment key. -/
theorem generateFragmentShaderLines_warning_keys (ext : Externals)
    (cs : CustomShader) (na : List (String × Attribute)) :
    ∀ w ∈ (generateFragmentShaderLines ext cs na).2,
      w.1 = "CustomShaderStage.incompatiblePrimitiveFS" := by
  intro w hw
  simp only [generateFragmentShaderLines] at hw
  rcases hdl : defaultsLoop "fsInput" "CustomShaderStage.incompatiblePrimitiveFS"
      ", disabling custom fragment shader."
      (partitionAttributes na cs.usedVariablesFragment.attributeSet).missingAttributes
      ((partitionAttributes na cs.usedVariablesFragment.attributeSet).addToShader.map
        (fun p => generateAttributeField ext p.1 p.2))
      ((partitionAttributes na cs.usedVariablesFragment.attributeSet).addToShader.map
        (fun p => "fsInput.attributes." ++ p.1 ++ " = attributes." ++ p.1 ++ ";"))
      with ⟨o, warns⟩
  rw [hdl] at hw
  have hmem : w ∈ warns := by
    cases o with
    | none => exact hw
    | some pr =>
        obtain ⟨f, l⟩ := pr
        exact hw
  have := defaultsLoop_warning_keys "fsInput"
    "CustomShaderStage.incompatiblePrimitiveFS"
    ", disabling custom fragment shader."
    (partitionAttributes na cs.usedVariablesFragment.attributeSet).missingAttributes
    ((partitionAttributes na cs.usedVariablesFragment.attributeSet).addToShader.map
      (fun p => generateAttributeField ext p.1 p.2))
    ((partitionAttributes na cs.usedVariablesFragment.attributeSet).addToShader.map
      (fun p => "fsInput.attributes." ++ p.1 ++ " = attributes." ++ p.1 ++ ";"))
    w
  rw [hdl] at this
  exact this hmem

/-- Every warning call of the vertex generator carries the vertex key. -/
theorem generateVertexShaderLines_warning_keys (ext : Externals)
    (cs : CustomShader) (na : List (String × Attribute)) :
    ∀ w ∈ (generateVertexShaderLines ext cs na).2,
      w.1 = "CustomShaderStage.incompatiblePrimitiveVS" := by
  intro w hw
  simp only [generateVertexShaderLines] at hw
  rcases hdl : defaultsLoop "vsInput" "CustomShaderStage.incompatiblePrimitiveVS"
      ", disabling custom vertex shader"
      (partitionAttributes na cs.usedVariablesVertex.attributeSet).missingAttributes
      ((partitionAttributes na cs.usedVariablesVertex.attributeSet).addToShader.map
        (fun p => generateAttributeField ext p.1 p.2))
      ((partitionAttributes na cs.usedVariablesVertex.attributeSet).addToShader.map
        (fun p => "vsInput.attributes." ++ p.1 ++ " = attributes." ++ p.1 ++ ";"))
      with ⟨o, warns⟩
  rw [hdl] at hw
  have hmem : w ∈ warns := by
    cases o with
    | none => exact hw
    | some pr =>
        obtain ⟨f, l⟩ := pr
        exact hw
  have := defaultsLoop_warning_keys "vsInput"
    "CustomShaderStage.incompatiblePrimitiveVS"
    ", disabling custom vertex shader"
    (partitionAttributes na cs.usedVariablesVertex.attributeSet).missingAttributes
    ((partitionAttributes na cs.usedVariablesVertex.attributeSet).addToShader.map
      (fun p => generateAttributeField ext p.1 p.2))
    ((partitionAttributes na cs.usedVariablesVertex.attributeSet).addToShader.map
      (fun p => "vsInput.attributes." ++ p.1 ++ " = attributes." ++ p.1 ++ ";"))
    w
  rw [hdl] at this
  exact this hmem

/-- C1: if a stage uses an attribute absent from the catalog of the
primitive and not inferable by the default policy, that stage ends disabled,
generation emits exactly one warning call for that stage naming a missing
non-inferable attribute, and no struct, struct-field, function or raw-line
call for that stage reaches the shader backend. -/
theorem claim_C1 (ext : Externals) (rr : RenderResources) (cs : CustomShader)
    (p : Primitive) :
    (cs.vertexShaderText.isSome = true →
      (∃ m ∈ cs.usedVariablesVertex.attributeSet,
         m ∉ objKeys (getAttributeNames ext p.attributes) ∧
         inferAttributeDefaults m = none) →
      ((generateShaderLines ext cs p).1.vertexLines.enabled = false ∧
       (∃ m ∈ cs.usedVariablesVertex.attributeSet,
          m ∉ objKeys (getAttributeNames ext p.attributes) ∧
          inferAttributeDefaults m = none ∧
          (generateShaderLines ext cs p).2.filter
              (fun w => w.1 = "CustomShaderStage.incompatiblePrimitiveVS") =
            [("CustomShaderStage.incompatiblePrimitiveVS",
              "Primitive is missing attribute " ++ m ++
                ", disabling custom vertex shader")]) ∧
       (process ext rr cs p).1.calls.filter isVertexStageStructCall =
         rr.calls.filter isVertexStageStructCall)) ∧
    (cs.fragmentShaderText.isSome = true →
      (∃ m ∈ cs.usedVariablesFragment.attributeSet,
         m ∉ objKeys (getAttributeNames ext p.attributes) ∧
         inferAttributeDefaults m = none) →
      ((generateShaderLines ext cs p).1.fragmentLines.enabled = false ∧
       (∃ m ∈ cs.usedVariablesFragment.attributeSet,
          m ∉ objKeys (getAttributeNames ext p.attributes) ∧
          inferAttributeDefaults m = none ∧
          (generateShaderLines ext cs p).2.filter
              (fun w => w.1 = "CustomShaderStage.incompatiblePrimitiveFS") =
            [("CustomShaderStage.incompatiblePrimitiveFS",
              "Primitive is missing attribute " ++ m ++
                ", disabling custom fragment shader.")]) ∧
       (process ext rr cs p).1.calls.filter isFragmentStageStructCall =
         rr.calls.filter isFragmentStageStructCall)) := by
  constructor
  · rintro hv ⟨m0, hm0u, hm0k, hm0n⟩
    have hm0miss : m0 ∈ (partitionAttributes (getAttributeNames ext p.attributes)
        cs.usedVariablesVertex.attributeSet).missingAttributes := by
      rw [← objContains_iff] at hm0k
      simp [partitionAttributes, List.mem_filter, hm0u]
      simpa using hm0k
    obtain ⟨m, hmmiss, hmn, heq⟩ :=
      generateVertexShaderLines_abort ext cs _ ⟨m0, hm0miss, hm0n⟩
    have hmprops := hmmiss
    simp [partitionAttributes, List.mem_filter] at hmprops
    have hmu : m ∈ cs.usedVariablesVertex.attributeSet := hmprops.1
    have hmk : m ∉ objKeys (getAttributeNames ext p.attributes) := by
      rw [← objContains_iff]
      simp [hmprops.2]
    have hvl : (generateShaderLines ext cs p).1.vertexLines = StageLines.disabled := by
      simp [generateShaderLines, hv, heq]
    have hven : (generateShaderLines ext cs p).1.vertexLines.enabled = false := by
      rw [hvl]
      rfl
    have hVW : (generateVertexShaderLines ext cs
        (getAttributeNames ext p.attributes)).2 =
        [("CustomShaderStage.incompatiblePrimitiveVS",
          "Primitive is missing attribute " ++ m ++
            ", disabling custom vertex shader")] := by
      rw [heq]
    refine ⟨hven, ⟨m, hmu, hmk, hmn, ?_⟩, ?_⟩
    · have hW : (generateShaderLines ext cs p).2 =
          (generateVertexShaderLines ext cs (getAttributeNames ext p.attributes)).2 ++
          (if cs.fragmentShaderText.isSome = true then
             (generateFragmentShaderLines ext cs (getAttributeNames ext p.attributes)).2
           else []) := by
        by_cases hf : cs.fragmentShaderText.isSome = true <;>
          simp [generateShaderLines, hv, hf]
      rw [hW, hVW, List.filter_append]
      have h2 : ((if cs.fragmentShaderText.isSome = true then
            (generateFragmentShaderLines ext cs (getAttributeNames ext p.attributes)).2
          else []).filter
            (fun w => w.1 = "CustomShaderStage.incompatiblePrimitiveVS")) = [] := by
        by_cases hf : cs.fragmentShaderText.isSome = true
        · simp only [hf, if_true]
          rw [List.filter_eq_nil_iff]
          intro w hw
          have hk := generateFragmentShaderLines_warning_keys ext cs _ w hw
          rw [hk]
          decide
        · simp [hf]
      rw [h2]
      simp
    · by_cases hcse : (generateShaderLines ext cs p).1.customShaderEnabled = true
      · have hfrag := addFragmentLinesToShader_no_vertex_struct
          (generateShaderLines ext cs p).1.fragmentLines
        simp [process, hcse, addLinesToShader, hven, List.filter_append,
          List.filter_eq_nil_iff, isVertexStageStructCall]
        refine ⟨?_, ?_, ?_, ?_⟩
        · intro a _ ha
          rcases ha with h | h
          · exact hfrag a h
          · rw [h]
        · intro a _ ha
          rcases ha with h | h <;> rw [h]
        · intro a x y _ h
          rw [← h]
        · intro a x y _ h
          rw [← h]
      · simp [Bool.not_eq_true] at hcse
        simp [process, hcse]
  · rintro hf ⟨m0, hm0u, hm0k, hm0n⟩
    have hm0miss : m0 ∈ (partitionAttributes (getAttributeNames ext p.attributes)
        cs.usedVariablesFragment.attributeSet).missingAttributes := by
      rw [← objContains_iff] at hm0k
      simp [partitionAttributes, List.mem_filter, hm0u]
      simpa using hm0k
    obtain ⟨m, hmmiss, hmn, heq⟩ :=
      generateFragmentShaderLines_abort ext cs _ ⟨m0, hm0miss, hm0n⟩
    have hmprops := hmmiss
    simp [partitionAttributes, List.mem_filter] at hmprops
    have hmu : m ∈ cs.usedVariablesFragment.attributeSet := hmprops.1
    have hmk : m ∉ objKeys (getAttributeNames ext p.attributes) := by
      rw [← objContains_iff]
      simp [hmprops.2]
    have hfl : (generateShaderLines ext cs p).1.fragmentLines = StageLines.disabled := by
      simp [generateShaderLines, hf, heq]
    have hfen : (generateShaderLines ext cs p).1.fragmentLines.enabled = false := by
      rw [hfl]
      rfl
    have hFW : (generateFragmentShaderLines ext cs
        (getAttributeNames ext p.attributes)).2 =
        [("CustomShaderStage.incompatiblePrimitiveFS",
          "Primitive is missing attribute " ++ m ++
            ", disabling custom fragment shader.")] := by
      rw [heq]
    refine ⟨hfen, ⟨m, hmu, hmk, hmn, ?_⟩, ?_⟩
    · have hW : (generateShaderLines ext cs p).2 =
          (if cs.vertexShaderText.isSome = true then
             (generateVertexShaderLines ext cs (getAttributeNames ext p.attributes)).2
           else []) ++
          (generateFragmentShaderLines ext cs (getAttributeNames ext p.attributes)).2 := by
        by_cases hv : cs.vertexShaderText.isSome = true <;>
          simp [generateShaderLines, hv, hf]
      rw [hW, hFW, List.filter_append]
      have h2 : ((if cs.vertexShaderText.isSome = true then
            (generateVertexShaderLines ext cs (getAttributeNames ext p.attributes)).2
          else []).filter
            (fun w => w.1 = "CustomShaderStage.incompatiblePrimitiveFS")) = [] := by
        by_cases hv : cs.vertexShaderText.isSome = true
        · simp only [hv, if_true]
          rw [List.filter_eq_nil_iff]
          intro w hw
          have hk := generateVertexShaderLines_warning_keys ext cs _ w hw
          rw [hk]
          decide
        · simp [hv]
      rw [h2]
      simp
    · by_cases hcse : (generateShaderLines ext cs p).1.customShaderEnabled = true
      · have hvert := addVertexLinesToShader_no_fragment_struct
          (generateShaderLines ext cs p).1.vertexLines
        simp [process, hcse, addLinesToShader, hfen, List.filter_append,
          List.filter_eq_nil_iff, isFragmentStageStructCall]
        refine ⟨?_, ?_, ?_, ?_⟩
        · intro a _ ha
          rcases ha with h | h
          · exact hvert a h
          · rw [h]
        · intro a _ ha
          rcases ha with h | h <;> rw [h]
        · intro a x y _ h
          rw [← h]
        · intro a x y _ h
          rw [← h]
      · simp [Bool.not_eq_true] at hcse
        simp [process, hcse]

theorem claim_C1_witness :
    (generateShaderLines extDemo csC10Demo primDemo).1.vertexLines.enabled = false ∧
    (∃ m ∈ csC10Demo.usedVariablesVertex.attributeSet,
       m ∉ objKeys (getAttributeNames extDemo primDemo.attributes) ∧
       inferAttributeDefaults m = none ∧
       (generateShaderLines extDemo csC10Demo primDemo).2.filter
           (fun w => w.1 = "CustomShaderStage.incompatiblePrimitiveVS") =
         [("CustomShaderStage.incompatiblePrimitiveVS",
           "Primitive is missing attribute " ++ m ++
             ", disabling custom vertex shader")]) ∧
    (process extDemo rrDemo csC10Demo primDemo).1.calls.filter
        isVertexStageStructCall =
      rrDemo.calls.filter isVertexStageStructCall :=
  (claim_C1 extDemo rrDemo csC10Demo primDemo).1 (by decide)
    ⟨"color_0", by decide, by decide, by decide⟩

/-- Demonstration custom shader: vertex stage using the one attribute the
demonstration primitive has. -/
def csC6Demo : CustomShader :=
  { csEmptyDemo with
      vertexShaderText := some "vertex body",
      usedVariablesVertex := { attributeSet := ["temperature"] } }

/-- C6: when the vertex-used attribute set is contained in the attribute
catalog of the primitive, vertex generation succeeds, the generated
Attributes struct has exactly one field per used attribute, and each
assignment line copies the attribute of the same name into the vertex
input struct (named vsInput). -/
theorem claim_C6 (ext : Externals) (cs : CustomShader) (p : Primitive)
    (hvs : cs.vertexShaderText.isSome = true)
    (hsub : ∀ n ∈ cs.usedVariablesVertex.attributeSet,
        n ∈ objKeys (getAttributeNames ext p.attributes)) :
    (generateShaderLines ext cs p).1.vertexLines.enabled = true ∧
    (∀ n, ((generateShaderLines ext cs p).1.vertexLines.attributeFields.map
        Prod.snd).count n =
      if n ∈ cs.usedVariablesVertex.attributeSet then 1 else 0) ∧
    ((generateShaderLines ext cs p).1.vertexLines.initializationLines =
      (generateShaderLines ext cs p).1.vertexLines.attributeFields.map
        (fun f => "vsInput.attributes." ++ f.2 ++ " = attributes." ++ f.2 ++ ";")) := by
  have hmiss : (partitionAttributes (getAttributeNames ext p.attributes)
      cs.usedVariablesVertex.attributeSet).missingAttributes = [] := by
    simp only [partitionAttributes]
    rw [List.filter_eq_nil_iff]
    intro n hn
    have hmem := hsub n hn
    rw [← objContains_iff] at hmem
    simp [hmem]
  have hsucc := generateVertexShaderLines_success ext cs
    (getAttributeNames ext p.attributes)
    (by rw [hmiss]; intro x hx; cases hx)
  rw [hmiss] at hsucc
  simp only [List.map_nil, List.append_nil] at hsucc
  have hvl : (generateShaderLines ext cs p).1.vertexLines =
      ({ enabled := true,
         attributeFields :=
           (partitionAttributes (getAttributeNames ext p.attributes)
             cs.usedVariablesVertex.attributeSet).addToShader.map
               (fun q => generateAttributeField ext q.1 q.2),
         fragmentInputFields := [],
         initializationLines :=
           (partitionAttributes (getAttributeNames ext p.attributes)
             cs.usedVariablesVertex.attributeSet).addToShader.map
               (fun q =>
                 "vsInput.attributes." ++ q.1 ++ " = attributes." ++ q.1 ++ ";") } :
        StageLines) := by
    simp [generateShaderLines, hvs, hsucc]
  have hkeys : ((generateShaderLines ext cs p).1.vertexLines.attributeFields.map
      Prod.snd) = objKeys (partitionAttributes (getAttributeNames ext p.attributes)
        cs.usedVariablesVertex.attributeSet).addToShader := by
    rw [hvl]
    simp [objKeys, List.map_map, generateAttributeField, Function.comp]
  refine ⟨by rw [hvl], ?_, ?_⟩
  · intro n
    rw [hkeys]
    have hnodup : (objKeys (getAttributeNames ext p.attributes)).Nodup :=
      getAttributeNames_keys_nodup ext p.attributes
    have hsubl : List.Sublist
        (objKeys (partitionAttributes (getAttributeNames ext p.attributes)
          cs.usedVariablesVertex.attributeSet).addToShader)
        (objKeys (getAttributeNames ext p.attributes)) := by
      simp only [partitionAttributes, objKeys]
      exact List.Sublist.map Prod.fst
        (List.filter_sublist (getAttributeNames ext p.attributes))
    have hnodup2 := hsubl.nodup hnodup
    by_cases hn : n ∈ cs.usedVariablesVertex.attributeSet
    · have hmemna := hsub n hn
      simp only [objKeys, List.mem_map] at hmemna
      obtain ⟨q, hq, hq1⟩ := hmemna
      have hmem : n ∈ objKeys (partitionAttributes
          (getAttributeNames ext p.attributes)
          cs.usedVariablesVertex.attributeSet).addToShader := by
        simp only [partitionAttributes, objKeys, List.mem_map]
        refine ⟨q, List.mem_filter.mpr ⟨hq, ?_⟩, hq1⟩
        simp [hq1, hn]
      rw [List.count_eq_one_of_mem hnodup2 hmem]
      simp [hn]
    · have hnot : n ∉ objKeys (partitionAttributes
          (getAttributeNames ext p.attributes)
          cs.usedVariablesVertex.attributeSet).addToShader := by
        intro hmem
        simp only [partitionAttributes, objKeys, List.mem_map] at hmem
        obtain ⟨q, hq, hq1⟩ := hmem
        have := (List.mem_filter.mp hq).2
        rw [hq1] at this
        simp at this
        exact hn this
      rw [List.count_eq_zero.mpr hnot]
      simp [hn]
  · rw [hvl]
    simp [List.map_map, generateAttributeField, Function.comp]

theorem claim_C6_witness :
    (generateShaderLines extDemo csC6Demo primDemo).1.vertexLines.enabled = true ∧
    ((generateShaderLines extDemo csC6Demo primDemo).1.vertexLines.attributeFields.map
        Prod.snd).count "temperature" =
      (if "temperature" ∈ csC6Demo.usedVariablesVertex.attributeSet then 1 else 0) ∧
    ((generateShaderLines extDemo csC6Demo primDemo).1.vertexLines.initializationLines =
      (generateShaderLines extDemo csC6Demo primDemo).1.vertexLines.attributeFields.map
        (fun f => "vsInput.attributes." ++ f.2 ++ " = attributes." ++ f.2 ++ ";")) :=
  ⟨(claim_C6 extDemo csC6Demo primDemo (by decide) (by decide)).1,
   (claim_C6 extDemo csC6Demo primDemo (by decide) (by decide)).2.1 "temperature",
   (claim_C6 extDemo csC6Demo primDemo (by decide) (by decide)).2.2⟩

/-- takeWhile and dropWhile on a list whose front wholly satisfies the
predicate and whose next element does not. -/
theorem takeWhile_dropWhile_all_append {α : Type} (pr : α → Bool)
    (l1 : List α) (c : α) (l2 : List α)
    (h1 : ∀ x ∈ l1, pr x = true) (hc : pr c = false) :
    ((l1 ++ c :: l2).takeWhile pr = l1 ∧
     (l1 ++ c :: l2).dropWhile pr = c :: l2) := by
  induction l1 with
  | nil => simp [List.takeWhile_cons, List.dropWhile_cons, hc]
  | cons a rest ih =>
      have ha := h1 a (by simp)
      have ih2 := ih (fun x hx => h1 x (by simp [hx]))
      simp [List.takeWhile_cons, List.dropWhile_cons, ha, ih2.1, ih2.2]

/-- The set-index stripper removes a trailing underscore-digits suffix. -/
theorem stripTrailingSetIndex_append_digits (t d : String) (hne : d ≠ "")
    (hd : ∀ c ∈ d.data, c.isDigit = true) :
    stripTrailingSetIndex (t ++ "_" ++ d) = t := by
  have hdata : (t ++ "_" ++ d).data = t.data ++ '_' :: d.data := by
    rw [String.data_append, String.data_append]
    rw [show ("_" : String).data = ['_'] from rfl, List.append_assoc]
    rfl
  have hrev : (t ++ "_" ++ d).data.reverse =
      d.data.reverse ++ '_' :: t.data.reverse := by
    rw [hdata]
    simp
  have hall : ∀ c ∈ d.data.reverse, c.isDigit = true := by
    intro c hcm
    exact hd c (List.mem_reverse.mp hcm)
  obtain ⟨htake, hdrop⟩ := takeWhile_dropWhile_all_append Char.isDigit
    d.data.reverse '_' t.data.reverse hall (by decide)
  have hdd : d.data ≠ [] := fun hnil => hne (String.ext hnil)
  have hrnil : d.data.reverse ≠ [] := by
    simpa using hdd
  obtain ⟨a, as, hcons⟩ := List.exists_cons_of_ne_nil hrnil
  simp only [stripTrailingSetIndex]
  rw [hrev, htake, hdrop, hcons]
  simp

/-- inferAttributeDefaults on a name with a trailing underscore-digits
suffix: the lookup uses the stripped base name while the emitted field keeps
the full name. -/
theorem inferAttributeDefaults_append_digits (t d : String) (hne : d ≠ "")
    (hd : ∀ c ∈ d.data, c.isDigit = true) :
    inferAttributeDefaults (t ++ "_" ++ d) =
      (match objLookup attributeTypeLUT t with
       | none => none
       | some glslType =>
           some { attributeField := (glslType, t ++ "_" ++ d),
                  value := (objLookup attributeDefaultValueLUT t).getD "undefined" }) := by
  simp only [inferAttributeDefaults,
    stripTrailingSetIndex_append_digits t d hne hd]

/-- C7: a shader that references the attribute normal while the primitive
lacks it still succeeds when every other missing attribute is also
resolvable, and the generated field for normal has type vec3 with an
assignment of exactly the literal vec3(0.0, 0.0, 1.0); in general, default
inference strips one trailing underscore-digits suffix before the table
lookup, so color names and any name whose stripped base is outside the
table are not inferable. -/
theorem claim_C7 :
    (∀ t d : String, d ≠ "" → (∀ c ∈ d.data, c.isDigit = true) →
       inferAttributeDefaults (t ++ "_" ++ d) =
         (match objLookup attributeTypeLUT t with
          | none => none
          | some glslType =>
              some { attributeField := (glslType, t ++ "_" ++ d),
                     value := (objLookup attributeDefaultValueLUT t).getD "undefined" })) ∧
    (∀ d : String, d ≠ "" → (∀ c ∈ d.data, c.isDigit = true) →
       inferAttributeDefaults ("color" ++ "_" ++ d) = none) ∧
    (∀ s : String, objLookup attributeTypeLUT (stripTrailingSetIndex s) = none →
       inferAttributeDefaults s = none) ∧
    (∀ (ext : Externals) (cs : CustomShader) (p : Primitive),
       cs.vertexShaderText.isSome = true →
       "normal" ∈ cs.usedVariablesVertex.attributeSet →
       "normal" ∉ objKeys (getAttributeNames ext p.attributes) →
       (∀ m ∈ cs.usedVariablesVertex.attributeSet,
         m ∈ objKeys (getAttributeNames ext p.attributes) ∨
           (inferAttributeDefaults m).isSome = true) →
       ((generateShaderLines ext cs p).1.vertexLines.enabled = true ∧
        ("vec3", "normal") ∈
          (generateShaderLines ext cs p).1.vertexLines.attributeFields ∧
        "vsInput.attributes.normal = vec3(0.0, 0.0, 1.0);" ∈
          (generateShaderLines ext cs p).1.vertexLines.initializationLines)) := by
  refine ⟨inferAttributeDefaults_append_digits, ?_, ?_, ?_⟩
  · intro d hne hd
    rw [inferAttributeDefaults_append_digits "color" d hne hd]
    rfl
  · intro s hs
    simp only [inferAttributeDefaults, hs]
  · intro ext cs p hvs hnu hnk hres
    have hall : ∀ x ∈ (partitionAttributes (getAttributeNames ext p.attributes)
        cs.usedVariablesVertex.attributeSet).missingAttributes,
        (inferAttributeDefaults x).isSome = true := by
      intro x hx
      simp only [partitionAttributes, List.mem_filter] at hx
      rcases hres x hx.1 with hmem | hsome
      · rw [← objContains_iff] at hmem
        rw [hmem] at hx
        simp at hx
      · exact hsome
    have hsucc := generateVertexShaderLines_success ext cs
      (getAttributeNames ext p.attributes) hall
    have hnmiss : "normal" ∈ (partitionAttributes
        (getAttributeNames ext p.attributes)
        cs.usedVariablesVertex.attributeSet).missingAttributes := by
      rw [← objContains_iff] at hnk
      simp only [partitionAttributes, List.mem_filter]
      refine ⟨hnu, ?_⟩
      simpa using hnk
    have hinfn : inferAttributeDefaults "normal" =
        some { attributeField := ("vec3", "normal"),
               value := "vec3(0.0, 0.0, 1.0)" } := by decide
    have hvl : (generateShaderLines ext cs p).1.vertexLines =
        (generateVertexShaderLines ext cs (getAttributeNames ext p.attributes)).1 := by
      simp [generateShaderLines, hvs]
    refine ⟨?_, ?_, ?_⟩
    · rw [hvl, hsucc]
    · rw [hvl, hsucc]
      simp only [List.mem_append, List.mem_map]
      right
      exact ⟨"normal", hnmiss, by rw [hinfn]; rfl⟩
    · rw [hvl, hsucc]
      simp only [List.mem_append, List.mem_map]
      right
      refine ⟨"normal", hnmiss, ?_⟩
      rw [hinfn]
      rfl

/-- Demonstration custom shader whose vertex stage references normal, which
the demonstration primitive lacks. -/
def csNormalDemo : CustomShader :=
  { csEmptyDemo with
      vertexShaderText := some "vertex body",
      usedVariablesVertex := { attributeSet := ["normal"] } }

theorem claim_C7_witness :
    inferAttributeDefaults ("texCoord" ++ "_" ++ "1") =
      some { attributeField := ("vec2", "texCoord" ++ "_" ++ "1"),
             value := "vec2(0.0)" } ∧
    inferAttributeDefaults ("color" ++ "_" ++ "0") = none ∧
    ((generateShaderLines extDemo csNormalDemo primDemo).1.vertexLines.enabled = true ∧
     ("vec3", "normal") ∈
       (generateShaderLines extDemo csNormalDemo primDemo).1.vertexLines.attributeFields ∧
     "vsInput.attributes.normal = vec3(0.0, 0.0, 1.0);" ∈
       (generateShaderLines extDemo
         csNormalDemo primDemo).1.vertexLines.initializationLines) :=
  ⟨(claim_C7.1 "texCoord" "1" (by decide) (by decide)).trans (by rfl),
   claim_C7.2.1 "0" (by decide) (by decide),
   claim_C7.2.2.2 extDemo csNormalDemo primDemo (by decide) (by decide) (by decide)
     (by decide)⟩
